import Mathlib

/-!
Shallow embedding of the Dependable Painting worker code, covering the
session-scoped chat orchestrator (the `ChatSession` Durable Object), the
chat-turn lead qualifier (`detectHighValueLead`), the notification dispatcher
(`NotificationService`), the analytics recorder (`AnalyticsService`), and the
queue consumer loop (ack/retry per message).

Modelling conventions: JS strings are Lean `String`s; a field that can be
`undefined` is an `Option`; every external HTTP call site returns a result
drawn from an explicit behaviour parameter and is recorded in an effect
trace, so that theorems can quantify over sink behaviours; a JS exception
that escapes a handler is an explicit outcome constructor.
-/

/- ### String primitives (JS semantics) -/

/-- Prefix test on exploded character lists, used to implement
JS `String.prototype.includes`. -/
def charsStartWith : List Char → List Char → Bool
  | _, [] => true
  | [], _ :: _ => false
  | c :: cs, p :: ps => c == p && charsStartWith cs ps

/-- Substring occurrence test on exploded character lists: the pattern occurs
at some position of the text (an empty pattern always occurs). -/
def charsContain : List Char → List Char → Bool
  | [], pat => pat.isEmpty
  | c :: cs, pat => charsStartWith (c :: cs) pat || charsContain cs pat

/-- JS `s.includes(pat)`. -/
def jsIncludes (s pat : String) : Bool := charsContain s.toList pat.toList

/-- JS `s.toLowerCase()`.  All keyword sets in this code are basic-latin, so
the per-character `Char.toLower` agrees with JS on every relevant character. -/
def jsToLower (s : String) : String := String.mk (s.toList.map Char.toLower)

/-- JS `a || d` for an optional string: both `undefined` and `""` are falsy. -/
def jsOrElse (o : Option String) (d : String) : String :=
  match o with
  | none => d
  | some s => if s.isEmpty then d else s

/- ### `ChatSession.detectHighValueLead` -/

/-- The fixed keyword list of `ChatSession.detectHighValueLead`. -/
def highValueKeywords : List String :=
  ["commercial", "business", "office", "restaurant", "store",
   "whole house", "entire house", "multiple rooms",
   "exterior", "siding", "trim",
   "estimate", "quote", "price", "cost",
   "when can you start", "schedule", "appointment",
   "budget", "timeline", "project"]

/-- `ChatSession.detectHighValueLead(message, reply)`: lowercases the user
message and tests each keyword with `includes`.  The `reply` parameter is
declared but never read in the source, which the unused binder mirrors. -/
def detectHighValueLead (message _reply : String) : Bool :=
  highValueKeywords.any (fun keyword => jsIncludes (jsToLower message) keyword)

/- ### `ChatSession.fetch` -/

/-- Role of a persisted chat turn. -/
inductive Role
  | user
  | assistant
deriving DecidableEq, Repr

/-- One turn of the persisted session history.  `content := none` models a JS
`undefined` content (possible when the AI body carries a `message` object
without a `content` field). -/
structure Turn where
  role : Role
  content : Option String
deriving DecidableEq, Repr

/-- Shape of the AI gateway response body as consumed by `ChatSession.fetch`,
which reads `json.choices[0].message.content` and never consults the HTTP
status. -/
inductive AIBody
  /-- `aiResponse.json()` itself throws: the body is not valid JSON. -/
  | notJson
  /-- `json.choices[0].message` is unreachable (missing or empty `choices`,
  or missing `message`), so the property-chain access throws. -/
  | noMessagePath
  /-- `choices[0].message` exists and `content` is its value, absent when the
  object carries no `content` field. -/
  | message (content : Option String)
deriving DecidableEq

/-- Result of `fetch(this.env.AI_GATEWAY_URL, …)`. -/
inductive AIOutcome
  /-- The network call itself throws. -/
  | netError
  /-- A response arrived; `ok` is its HTTP success flag, `body` its body. -/
  | response (ok : Bool) (body : AIBody)
deriving DecidableEq

/-- The `high_value_chat_lead` payload sent on `NOTIFY_QUEUE` by
`ChatSession.fetch`. -/
structure HighValueChatLead where
  message : String
  reply : Option String
  page : String
  timestamp : Nat
deriving DecidableEq

/-- What the HTTP caller of `ChatSession.fetch` observes. -/
inductive ChatOutcome
  /-- A JSON response `{reply, sessionId, isHighValue}`. -/
  | ok (reply : Option String) (isHighValue : Bool)
  /-- An exception escaped the method (it contains no try/catch). -/
  | thrown
deriving DecidableEq

/-- Result of one `ChatSession.fetch` request: the observable outcome, the
history held in Durable Object storage after the request, and the payloads
successfully enqueued on `NOTIFY_QUEUE` during the request. -/
structure ChatFetchResult where
  outcome : ChatOutcome
  history : List Turn
  enqueued : List HighValueChatLead
deriving DecidableEq

/-- `ChatSession.fetch`, shallowly embedded.  `history` is the stored history
read at entry, `ai` the result of the gateway call, `queueSendOk` whether
`NOTIFY_QUEUE.send` succeeds when it is attempted, and `now` is `Date.now()`.
The `imageUrl` argument only shapes the outbound AI request in the source
(composite text+image content), so it does not occur on the right-hand side;
analytics runs through `state.waitUntil` and cannot throw into the request.
The source awaits `NOTIFY_QUEUE.send` with no surrounding catch, and writes
`history` only after that send, so a rejected send throws out of the method
before the storage write. -/
def chatFetch (history : List Turn) (message : String) (page : Option String)
    (_imageUrl : Option String) (now : Nat) (ai : AIOutcome) (queueSendOk : Bool) :
    ChatFetchResult :=
  match ai with
  | .netError => ⟨.thrown, history, []⟩
  | .response _ok .notJson => ⟨.thrown, history, []⟩
  | .response _ok .noMessagePath => ⟨.thrown, history, []⟩
  | .response _ok (.message content) =>
    let reply := content
    let isHighValueLead := detectHighValueLead message (reply.getD "")
    if isHighValueLead && !queueSendOk then
      ⟨.thrown, history, []⟩
    else
      ⟨.ok reply isHighValueLead,
       history ++ [⟨.user, some message⟩, ⟨.assistant, reply⟩],
       if isHighValueLead then [⟨message, reply, jsOrElse page "unknown", now⟩] else []⟩

/- ### `NotificationService` (lib/notifications.ts) -/

/-- The `type` tag of a well-typed `NotificationPayload`. -/
inductive NotifType
  | estimate_request
  | high_value_chat_lead
  | call_conversion
deriving DecidableEq, Repr

/-- Values of the optional `leadValue` field. -/
inductive LeadValue
  | high
  | medium
  | low
deriving DecidableEq, Repr

/-- `NotificationPayload` from `lib/notifications.ts`: every field other than
`type` and `timestamp` is optional. -/
structure NotificationPayload where
  type : NotifType
  name : Option String
  email : Option String
  phone : Option String
  service : Option String
  message : Option String
  reply : Option String
  page : Option String
  timestamp : Nat
  leadValue : Option LeadValue
deriving DecidableEq

/-- Which external sinks are configured in the worker environment:
`twilio` stands for all three of `TWILIO_ACCOUNT_SID`, `TWILIO_AUTH_TOKEN`
and `TWILIO_PHONE_NUMBER`; `sendgrid` for `SENDGRID_API_KEY`; `ga4` for
`GA_MEASUREMENT_ID`; `googleAds` for `GOOGLE_ADS_CONVERSION_ID`. -/
structure NotifEnv where
  twilio : Bool
  sendgrid : Bool
  ga4 : Bool
  googleAds : Bool
deriving DecidableEq

/-- Behaviour of one external HTTP sink on a call: the fetch resolves with a
success status, resolves with a non-success status, or rejects. -/
inductive SinkResult
  | success
  | httpError
  | netError
deriving DecidableEq

/-- One HTTP call attempted against an external sink. -/
inductive Channel
  | sms
  | email
  | ga4
deriving DecidableEq, Repr

/-- `NotificationService.sendSMS`: returns `false` without any call when
Twilio is not configured; otherwise attempts the Twilio call, catching a
network error and returning `response.ok`.  The second component records the
attempt. -/
def sendSMS (env : NotifEnv) (smsSink : SinkResult) : Bool × List Channel :=
  if !env.twilio then (false, [])
  else
    match smsSink with
    | .success => (true, [.sms])
    | .httpError => (false, [.sms])
    | .netError => (false, [.sms])

/-- `NotificationService.sendEmail`: returns `false` without any call when
SendGrid is not configured; otherwise attempts the SendGrid call, catching a
network error and returning `response.ok`. -/
def sendEmail (env : NotifEnv) (emailSink : SinkResult) : Bool × List Channel :=
  if !env.sendgrid then (false, [])
  else
    match emailSink with
    | .success => (true, [.email])
    | .httpError => (false, [.email])
    | .netError => (false, [.email])

/-- The fixed keyword list of `NotificationService.isCommercialLead`. -/
def commercialKeywords : List String :=
  ["commercial", "business", "office", "restaurant", "store", "warehouse", "retail"]

/-- `NotificationService.isCommercialLead`: keyword scan over the lowercased
`service` and `message` fields, an `undefined` field becoming `''`. -/
def isCommercialLead (p : NotificationPayload) : Bool :=
  commercialKeywords.any (fun keyword =>
    jsIncludes (jsToLower (jsOrElse p.service "")) keyword ||
    jsIncludes (jsToLower (jsOrElse p.message "")) keyword)

/-- The priority test at the top of `NotificationService.processNotification`:
`high_value_chat_lead` type, or `leadValue === 'high'`, or the commercial
keyword heuristic. -/
def isHighPriority (p : NotificationPayload) : Bool :=
  p.type == .high_value_chat_lead || p.leadValue == some .high || isCommercialLead p

/-- Effects of `NotificationService.handleEstimateNotification`: SMS only when
classified high priority, then email, each best-effort. -/
def handleEstimateNotification (env : NotifEnv) (smsSink emailSink : SinkResult)
    (isHighPriorityArg : Bool) : List Channel :=
  (if isHighPriorityArg then (sendSMS env smsSink).2 else []) ++ (sendEmail env emailSink).2

/-- Effects of `NotificationService.handleChatLeadNotification`: SMS then
email, unconditionally. -/
def handleChatLeadNotification (env : NotifEnv) (smsSink emailSink : SinkResult) :
    List Channel :=
  (sendSMS env smsSink).2 ++ (sendEmail env emailSink).2

/-- Effects of `NotificationService.handleCallConversion`: email only. -/
def handleCallConversion (env : NotifEnv) (emailSink : SinkResult) : List Channel :=
  (sendEmail env emailSink).2

/-- `NotificationService.processNotification`: classify priority, then route
by payload type.  For a well-typed payload nothing in the body can throw, so
the embedding is a total function to the effect trace. -/
def processNotification (env : NotifEnv) (smsSink emailSink : SinkResult)
    (p : NotificationPayload) : List Channel :=
  match p.type with
  | .estimate_request => handleEstimateNotification env smsSink emailSink (isHighPriority p)
  | .high_value_chat_lead => handleChatLeadNotification env smsSink emailSink
  | .call_conversion => handleCallConversion env emailSink

/- ### `AnalyticsService` (lib/analytics.ts, the class imported by the queue
consumer) -/

/-- `AnalyticsService.trackGA4Event`: returns `false` without any call when
GA4 is not configured; otherwise attempts the Measurement Protocol call,
catching a network error and returning `response.ok`.  It never throws. -/
def trackGA4Event (env : NotifEnv) (gaSink : SinkResult) : Bool × List Channel :=
  if !env.ga4 then (false, [])
  else
    match gaSink with
    | .success => (true, [.ga4])
    | .httpError => (false, [.ga4])
    | .netError => (false, [.ga4])

/-- `AnalyticsService.trackGoogleAdsConversion`: returns `false` without any
call when Google Ads is not configured; otherwise forwards through
`trackGA4Event` inside its own try/catch. -/
def trackGoogleAdsConversion (env : NotifEnv) (gaSink : SinkResult) :
    Bool × List Channel :=
  if !env.googleAds then (false, [])
  else trackGA4Event env gaSink

/-- `AnalyticsService.trackFormSubmission`: one GA4 event and one Google Ads
conversion. -/
def trackFormSubmission (env : NotifEnv) (gaSink : SinkResult) : List Channel :=
  (trackGA4Event env gaSink).2 ++ (trackGoogleAdsConversion env gaSink).2

/-- `AnalyticsService.trackBusinessEvent`: one GA4 event. -/
def trackBusinessEvent (env : NotifEnv) (gaSink : SinkResult) : List Channel :=
  (trackGA4Event env gaSink).2

/-- `AnalyticsService.trackPhoneCall`: one GA4 event and one Google Ads
conversion. -/
def trackPhoneCall (env : NotifEnv) (gaSink : SinkResult) : List Channel :=
  (trackGA4Event env gaSink).2 ++ (trackGoogleAdsConversion env gaSink).2

/- ### The queue consumer (src/queue.ts) -/

/-- Runtime body of a dequeued message.  The transport does not enforce the
`NotificationPayload` type: besides well-typed payloads the consumer can see
an object with no `type` field (every `payload.type === '…'` comparison is
then false), or a nullish body on which any property access throws. -/
inductive QueueBody
  | typed (p : NotificationPayload)
  | missingType (service message : Option String) (leadValue : Option LeadValue)
  | nullBody
deriving DecidableEq

/-- Per-message outcome of the consumer loop. -/
inductive MsgOutcome
  | ack
  | retry
deriving DecidableEq, Repr

/-- One iteration of the consumer loop in the queue handler: run
`processNotification`, then the per-type analytics call, then `ack()`; any
exception thrown inside the iteration is caught and answered with `retry()`.
Returns the outcome together with every sink call attempted while handling
the message. -/
def consumeMessage (env : NotifEnv) (smsSink emailSink gaSink : SinkResult)
    (body : QueueBody) : MsgOutcome × List Channel :=
  match body with
  | .nullBody => (.retry, [])
  | .missingType _ _ _ => (.ack, [])
  | .typed p =>
    let notif := processNotification env smsSink emailSink p
    let analytics :=
      match p.type with
      | .estimate_request => trackFormSubmission env gaSink
      | .high_value_chat_lead => trackBusinessEvent env gaSink
      | .call_conversion => trackPhoneCall env gaSink
    (.ack, notif ++ analytics)

/- ### Helper lemmas -/

/-- `Char.toLower` is idempotent: lowering lands outside the upper-case
range. -/
theorem charToLower_idem (c : Char) : Char.toLower (Char.toLower c) = Char.toLower c := by
  unfold Char.toLower
  by_cases h : c.toNat ≥ 65 ∧ c.toNat ≤ 90
  · rw [if_pos h]
    have hv : Nat.isValidChar (c.toNat + 32) := by
      left
      omega
    have ht : (Char.ofNat (c.toNat + 32)).toNat = c.toNat + 32 := by
      rw [Char.ofNat, dif_pos hv]
      rfl
    rw [ht]
    have hne : ¬(c.toNat + 32 ≥ 65 ∧ c.toNat + 32 ≤ 90) := by omega
    rw [if_neg hne]
  · rw [if_neg h, if_neg h]

/-- `jsToLower` is idempotent. -/
theorem jsToLower_idem (s : String) : jsToLower (jsToLower s) = jsToLower s := by
  unfold jsToLower
  congr 1
  simp only [String.toList]
  rw [List.map_map]
  exact List.map_congr_left fun c _ => charToLower_idem c

/-- The SMS effect trace depends only on whether Twilio is configured. -/
theorem sendSMS_effects (env : NotifEnv) (s : SinkResult) :
    (sendSMS env s).2 = if env.twilio then [Channel.sms] else [] := by
  cases s <;> cases henv : env.twilio <;> simp [sendSMS, henv]

/-- The email effect trace depends only on whether SendGrid is configured. -/
theorem sendEmail_effects (env : NotifEnv) (e : SinkResult) :
    (sendEmail env e).2 = if env.sendgrid then [Channel.email] else [] := by
  cases e <;> cases henv : env.sendgrid <;> simp [sendEmail, henv]

/-- The GA4 effect trace depends only on whether GA4 is configured. -/
theorem trackGA4Event_effects (env : NotifEnv) (g : SinkResult) :
    (trackGA4Event env g).2 = if env.ga4 then [Channel.ga4] else [] := by
  cases g <;> cases henv : env.ga4 <;> simp [trackGA4Event, henv]

/-- The Google Ads effect trace depends only on the configuration flags. -/
theorem trackGoogleAdsConversion_effects (env : NotifEnv) (g : SinkResult) :
    (trackGoogleAdsConversion env g).2 =
      if env.googleAds then (if env.ga4 then [Channel.ga4] else []) else [] := by
  cases hads : env.googleAds <;>
    simp [trackGoogleAdsConversion, hads, trackGA4Event_effects]

/-- The analytics branch of the consumer only ever attempts GA4 calls. -/
theorem analytics_no_sms_no_email (env : NotifEnv) (g : SinkResult) :
    (∀ c ∈ trackFormSubmission env g, c = Channel.ga4) ∧
    (∀ c ∈ trackBusinessEvent env g, c = Channel.ga4) ∧
    (∀ c ∈ trackPhoneCall env g, c = Channel.ga4) := by
  refine ⟨?_, ?_, ?_⟩ <;>
    simp only [trackFormSubmission, trackBusinessEvent, trackPhoneCall,
      trackGA4Event_effects, trackGoogleAdsConversion_effects, List.mem_append] <;>
    intro c hc <;>
    cases hga : env.ga4 <;> cases hads : env.googleAds <;>
    simp [hga, hads] at hc <;> simp [hc]

/- ### Claim C1 -/

/-- C1 counterexample: the claim counts a non-success HTTP status as a failed
completion call, but `ChatSession.fetch` never reads `aiResponse.ok`.  With
status not ok and a well-formed body, starting from the empty persisted
history, the request appends two turns, so the history does not stay
unchanged. -/
theorem C1_status_counterexample :
    (chatFetch [] "hi" none none 0 (.response false (.message (some "Hello"))) true).history
      ≠ [] := by
  decide

/-- C1 (amended): the persisted history is unchanged exactly when reply
extraction throws — network error, non-JSON body, or unreachable
`choices[0].message` — and then the exception propagates; the HTTP status is
never consulted, so a non-success response with a well-formed body is handled
as a success. -/
theorem C1_extraction_failure_leaves_history (history : List Turn) (message : String)
    (page imageUrl : Option String) (now : Nat) (ok : Bool) (queueSendOk : Bool) :
    chatFetch history message page imageUrl now .netError queueSendOk
        = ⟨.thrown, history, []⟩ ∧
    chatFetch history message page imageUrl now (.response ok .notJson) queueSendOk
        = ⟨.thrown, history, []⟩ ∧
    chatFetch history message page imageUrl now (.response ok .noMessagePath) queueSendOk
        = ⟨.thrown, history, []⟩ :=
  ⟨rfl, rfl, rfl⟩

/- ### Claim C2 -/

/-- C2 counterexample: a successful completion call with the high-value user
message "commercial" whose follow-up `NOTIFY_QUEUE.send` rejects does not
append the two turns — the request throws before the storage write, so the
history stays empty. -/
theorem C2_enqueue_counterexample :
    (chatFetch [] "commercial" none none 0
        (.response true (.message (some "Reply"))) false).history
      ≠ [⟨.user, some "commercial"⟩, ⟨.assistant, some "Reply"⟩] := by
  decide

/-- C2 (amended): for every successful completion call such that the
high-value enqueue, when it is triggered, also succeeds, the persisted
history after the call is exactly the old history with the user turn and the
assistant turn appended, in that order. -/
theorem C2_success_appends_two_turns (history : List Turn) (message : String)
    (page imageUrl : Option String) (now : Nat) (ok : Bool) (content : Option String)
    (queueSendOk : Bool)
    (h : detectHighValueLead message (content.getD "") = true → queueSendOk = true) :
    (chatFetch history message page imageUrl now
        (.response ok (.message content)) queueSendOk).history
      = history ++ [⟨.user, some message⟩, ⟨.assistant, content⟩] := by
  unfold chatFetch
  by_cases hv : detectHighValueLead message (content.getD "") = true
  · rw [h hv]
    simp [hv]
  · simp only [Bool.not_eq_true] at hv
    simp [hv]

/-- C2 witness: a plain (non-high-value) message appends exactly its user turn
and the assistant turn even when the queue would reject. -/
theorem C2_success_appends_two_turns_witness :
    (chatFetch [] "hello there" none none 0
        (.response true (.message (some "Hi"))) false).history
      = [] ++ [⟨.user, some "hello there"⟩, ⟨.assistant, some "Hi"⟩] :=
  C2_success_appends_two_turns [] "hello there" none none 0 true (some "Hi") false
    (by decide)

/- ### Claim C3 -/

/-- C3 counterexample: the completion call succeeded on the high-value message
"commercial", yet a rejected `NOTIFY_QUEUE.send` makes the whole request
throw — the enqueue failure is not swallowed and does fail the user-visible
chat response. -/
theorem C3_enqueue_counterexample :
    (chatFetch [] "commercial" none none 0
        (.response true (.message (some "Reply"))) false).outcome
      = ChatOutcome.thrown := by
  decide

/-- C3 (amended): after a successful completion call, a failing enqueue is not
swallowed: on a high-value message the request throws and the history write is
skipped, while on a non-high-value message no enqueue happens and the
response is unaffected.  The chat endpoint therefore fails when the
completion call fails or when the high-value enqueue fails. -/
theorem C3_enqueue_failure_propagates (history : List Turn) (message : String)
    (page imageUrl : Option String) (now : Nat) (ok : Bool) (content : Option String) :
    chatFetch history message page imageUrl now (.response ok (.message content)) false
      = if detectHighValueLead message (content.getD "") = true then
          ⟨.thrown, history, []⟩
        else
          ⟨.ok content false,
           history ++ [⟨.user, some message⟩, ⟨.assistant, content⟩], []⟩ := by
  unfold chatFetch
  by_cases hv : detectHighValueLead message (content.getD "") = true
  · simp [hv]
  · simp only [Bool.not_eq_true] at hv
    simp [hv]

/- ### Claim C5 -/

/-- C5: the lead qualifier is a pure function (a Lean `def`, so the same
`(message, reply)` pair always yields the same boolean); it returns true iff
at least one keyword of the fixed set occurs as a substring of the lowercased
message, hence matches case-insensitively (lowercasing the message first
changes nothing) and on substrings rather than whole words — both
"commercial" and "Commercial Building" match. -/
theorem C5_lead_qualifier_spec :
    (∀ m r, detectHighValueLead m r = true ↔
        ∃ k ∈ highValueKeywords, jsIncludes (jsToLower m) k = true) ∧
    (∀ m r, detectHighValueLead m r = detectHighValueLead (jsToLower m) r) ∧
    detectHighValueLead "commercial" "" = true ∧
    detectHighValueLead "Commercial Building" "any reply" = true := by
  refine ⟨?_, ?_, by decide, by decide⟩
  · intro m r
    simp [detectHighValueLead, List.any_eq_true]
  · intro m r
    unfold detectHighValueLead
    rw [jsToLower_idem]

/- ### Claim C10 -/

/-- C10: the AI reply argument has no influence on the high-value decision,
and none on whether a `high_value_chat_lead` payload is enqueued by
`ChatSession.fetch`. -/
theorem C10_reply_noninterference :
    (∀ m r₁ r₂, detectHighValueLead m r₁ = detectHighValueLead m r₂) ∧
    (∀ (history : List Turn) (m : String) (page imageUrl : Option String)
        (now : Nat) (ok : Bool) (c₁ c₂ : Option String) (queueSendOk : Bool),
      (chatFetch history m page imageUrl now
          (.response ok (.message c₁)) queueSendOk).enqueued.isEmpty
        = (chatFetch history m page imageUrl now
          (.response ok (.message c₂)) queueSendOk).enqueued.isEmpty) := by
  constructor
  · intro m r₁ r₂
    rfl
  · intro history m page imageUrl now ok c₁ c₂ queueSendOk
    have e : detectHighValueLead m (c₂.getD "") = detectHighValueLead m (c₁.getD "") := rfl
    by_cases hv : detectHighValueLead m (c₁.getD "") = true <;>
      cases queueSendOk <;> simp [chatFetch, e, hv]

/-- A payload of type `high_value_chat_lead` is always classified high
priority. -/
theorem isHighPriority_of_hvcl (p : NotificationPayload)
    (h : p.type = NotifType.high_value_chat_lead) : isHighPriority p = true := by
  simp [isHighPriority, h]

/-- If the SMS guard of the effect characterisation holds, the payload is
classified high priority. -/
theorem sms_guard_high (p : NotificationPayload)
    (h : (p.type == NotifType.high_value_chat_lead
        || (p.type == NotifType.estimate_request && isHighPriority p)) = true) :
    isHighPriority p = true := by
  rw [Bool.or_eq_true] at h
  rcases h with h | h
  · exact isHighPriority_of_hvcl p (by simpa using h)
  · exact ((Bool.and_eq_true _ _).mp h).2

/-- Effect-trace characterisation of one consumer iteration on a well-typed
payload: the trace is fully determined by the payload and the configuration
flags — an SMS attempt iff the payload routes to SMS and Twilio is
configured, an email attempt iff SendGrid is configured, and one or two GA4
attempts depending on type and the Google Ads flag.  In particular the trace
does not depend on any sink's behaviour. -/
theorem consumeMessage_typed_effects (env : NotifEnv) (s e g : SinkResult)
    (p : NotificationPayload) :
    (consumeMessage env s e g (.typed p)).2 =
      (if (p.type == NotifType.high_value_chat_lead
            || (p.type == NotifType.estimate_request && isHighPriority p))
          && env.twilio then [Channel.sms] else [])
      ++ (if env.sendgrid then [Channel.email] else [])
      ++ ((if env.ga4 then [Channel.ga4] else [])
          ++ (if !(p.type == NotifType.high_value_chat_lead)
                && env.googleAds && env.ga4 then [Channel.ga4] else [])) := by
  cases ht : p.type <;>
    cases htw : env.twilio <;> cases hga : env.ga4 <;> cases hads : env.googleAds <;>
    cases hhi : isHighPriority p <;>
    simp [consumeMessage, processNotification, handleEstimateNotification,
      handleChatLeadNotification, handleCallConversion, sendSMS_effects,
      sendEmail_effects, trackFormSubmission, trackBusinessEvent, trackPhoneCall,
      trackGA4Event_effects, trackGoogleAdsConversion_effects, ht, htw, hga, hads, hhi,
      isHighPriority_of_hvcl]

/- ### Claim C4 -/

/-- C4 counterexample: a queue message whose body has no `type` field is not
marked for retry — the consumer falls through every branch without throwing
and acknowledges the message (it does call no sink, but the outcome side of
the claim is false). -/
theorem C4_missing_type_counterexample :
    (consumeMessage ⟨true, true, true, true⟩ .success .success .success
        (.missingType (some "deck staining") (some "please paint my deck") none)).1
      ≠ MsgOutcome.retry ∧
    (consumeMessage ⟨true, true, true, true⟩ .success .success .success
        (.missingType (some "deck staining") (some "please paint my deck") none)).2
      = [] := by
  exact ⟨by decide, rfl⟩

/-- C4 (amended): a queue message whose body is an object missing the `type`
field matches no dispatch branch and no analytics branch: no SMS, email or
analytics sink is called, and the message is acknowledged, not retried.  Only
a body whose processing throws before any sink call — e.g. a nullish body —
is marked for retry, likewise with no sink calls. -/
theorem C4_malformed_payload_handling (env : NotifEnv) (s e g : SinkResult)
    (service message : Option String) (leadValue : Option LeadValue) :
    consumeMessage env s e g (.missingType service message leadValue)
        = (MsgOutcome.ack, []) ∧
    consumeMessage env s e g .nullBody = (MsgOutcome.retry, []) :=
  ⟨rfl, rfl⟩

/- ### Claim C6 -/

/-- C6 counterexample: an `estimate_request` payload carrying
`leadValue = 'high'` is classified high priority although the commercial
keyword heuristic does not match its service or message fields, refuting the
claimed "if and only if"; a `call_conversion` payload carrying
`leadValue = 'high'` is also classified high priority, refuting "never". -/
theorem C6_priority_counterexample :
    isHighPriority ⟨.estimate_request, none, none, none, some "Interior Painting",
        some "just curious", none, none, 0, some .high⟩ = true ∧
    isCommercialLead ⟨.estimate_request, none, none, none, some "Interior Painting",
        some "just curious", none, none, 0, some .high⟩ = false ∧
    isHighPriority ⟨.call_conversion, none, none, none, none, none, none,
        some "/services", 0, some .high⟩ = true := by
  exact ⟨by decide, by decide, by decide⟩

/-- C6 (amended): `high_value_chat_lead` is always classified high priority;
an `estimate_request` — and equally a `call_conversion` — is classified high
priority iff its `leadValue` field is `'high'` or the commercial/service
keyword heuristic matches its service or message fields; a `call_conversion`
payload as actually produced (only `page` and `timestamp` set) is never
classified high priority. -/
theorem C6_priority_classification (p : NotificationPayload) :
    (p.type = NotifType.high_value_chat_lead → isHighPriority p = true) ∧
    (p.type = NotifType.estimate_request →
      (isHighPriority p = true ↔
        p.leadValue = some LeadValue.high ∨ isCommercialLead p = true)) ∧
    (p.type = NotifType.call_conversion →
      (isHighPriority p = true ↔
        p.leadValue = some LeadValue.high ∨ isCommercialLead p = true)) ∧
    (∀ (page : Option String) (timestamp : Nat),
      isHighPriority ⟨NotifType.call_conversion, none, none, none, none, none, none,
        page, timestamp, none⟩ = false) := by
  refine ⟨fun ht => isHighPriority_of_hvcl p ht, fun ht => ?_, fun ht => ?_, ?_⟩
  · simp [isHighPriority, ht]
  · simp [isHighPriority, ht]
  · intro page timestamp
    rfl

/-- C6 witness: the amended classification applied at concrete payloads of
each type. -/
theorem C6_priority_classification_witness :
    isHighPriority ⟨NotifType.high_value_chat_lead, none, none, none, none,
        some "hello", some "reply", some "/", 5, none⟩ = true ∧
    (isHighPriority ⟨NotifType.estimate_request, none, none, none,
        some "commercial repaint", none, none, none, 3, none⟩ = true ↔
      (⟨NotifType.estimate_request, none, none, none, some "commercial repaint",
        none, none, none, 3, none⟩ : NotificationPayload).leadValue
          = some LeadValue.high ∨
      isCommercialLead ⟨NotifType.estimate_request, none, none, none,
        some "commercial repaint", none, none, none, 3, none⟩ = true) ∧
    isHighPriority ⟨NotifType.call_conversion, none, none, none, none, none, none,
        some "/contact", 7, none⟩ = false :=
  ⟨(C6_priority_classification _).1 rfl,
   (C6_priority_classification _).2.1 rfl,
   (C6_priority_classification
      ⟨NotifType.call_conversion, none, none, none, none, none, none,
        some "/contact", 7, none⟩).2.2.2 (some "/contact") 7⟩

/- ### Claim C7 -/

/-- C7: SMS is attempted only for a payload classified high priority with
Twilio configured; email is attempted exactly when SendGrid is configured,
whatever the priority; and the estimate submission
`{service: "Interior Painting", message: "just curious"}` produces an email
attempt and no SMS attempt even with every sink configured. -/
theorem C7_channel_routing (env : NotifEnv) (s e g : SinkResult)
    (p : NotificationPayload) :
    (Channel.sms ∈ (consumeMessage env s e g (.typed p)).2 →
      isHighPriority p = true ∧ env.twilio = true) ∧
    (Channel.email ∈ (consumeMessage env s e g (.typed p)).2 ↔
      env.sendgrid = true) ∧
    Channel.email ∈ (consumeMessage ⟨true, true, true, true⟩ s e g
      (.typed ⟨NotifType.estimate_request, some "Pat", some "pat@example.com",
        some "555-0100", some "Interior Painting", some "just curious",
        none, none, 0, none⟩)).2 ∧
    Channel.sms ∉ (consumeMessage ⟨true, true, true, true⟩ s e g
      (.typed ⟨NotifType.estimate_request, some "Pat", some "pat@example.com",
        some "555-0100", some "Interior Painting", some "just curious",
        none, none, 0, none⟩)).2 := by
  refine ⟨?_, ?_, ?_, ?_⟩
  · intro hmem
    rw [consumeMessage_typed_effects] at hmem
    cases hguard : (p.type == NotifType.high_value_chat_lead
        || (p.type == NotifType.estimate_request && isHighPriority p)) <;>
      cases htw : env.twilio <;> cases hsg : env.sendgrid <;> cases hga : env.ga4 <;>
      cases hads : env.googleAds <;>
      simp [hguard, htw, hsg, hga, hads] at hmem ⊢
    all_goals exact sms_guard_high p hguard
  · rw [consumeMessage_typed_effects]
    cases hguard : (p.type == NotifType.high_value_chat_lead
        || (p.type == NotifType.estimate_request && isHighPriority p)) <;>
      cases htw : env.twilio <;> cases hsg : env.sendgrid <;> cases hga : env.ga4 <;>
      cases hads : env.googleAds <;>
      cases hh : (p.type == NotifType.high_value_chat_lead) <;>
      simp [hguard, htw, hsg, hga, hads, hh]
  · rw [consumeMessage_typed_effects]
    decide
  · rw [consumeMessage_typed_effects]
    decide

/-- C7 witness: applied with every sink configured to a
`high_value_chat_lead` payload, whose SMS attempt is concrete. -/
theorem C7_channel_routing_witness :
    isHighPriority ⟨NotifType.high_value_chat_lead, none, none, none, none,
        some "hello", some "reply", some "/", 0, none⟩ = true ∧
    (⟨true, true, true, true⟩ : NotifEnv).twilio = true :=
  (C7_channel_routing ⟨true, true, true, true⟩ .success .success .success
    ⟨NotifType.high_value_chat_lead, none, none, none, none,
        some "hello", some "reply", some "/", 0, none⟩).1
    (by rw [consumeMessage_typed_effects]; decide)

/- ### Claim C8 -/

/-- C8: for every well-typed payload the consumer acknowledges regardless of
the channel sinks' behaviour; the attempted-call trace is itself independent
of sink behaviour (a failing channel aborts nothing); and concretely a
high-priority estimate with a failing (network-error) SMS sink and a
succeeding email sink is still acknowledged, the email attempt included. -/
theorem C8_ack_independent_of_channel_failures (env : NotifEnv)
    (s e g sAlt eAlt gAlt : SinkResult) (p : NotificationPayload) :
    (consumeMessage env s e g (.typed p)).1 = MsgOutcome.ack ∧
    (consumeMessage env s e g (.typed p)).2
        = (consumeMessage env sAlt eAlt gAlt (.typed p)).2 ∧
    (consumeMessage ⟨true, true, true, true⟩ .netError .success .success
      (.typed ⟨NotifType.estimate_request, some "Pat", some "pat@example.com",
        some "555-0100", some "Commercial Office", some "need a bid",
        none, none, 0, none⟩)).1 = MsgOutcome.ack ∧
    Channel.email ∈ (consumeMessage ⟨true, true, true, true⟩ .netError .success .success
      (.typed ⟨NotifType.estimate_request, some "Pat", some "pat@example.com",
        some "555-0100", some "Commercial Office", some "need a bid",
        none, none, 0, none⟩)).2 := by
  refine ⟨rfl, ?_, rfl, by decide⟩
  rw [consumeMessage_typed_effects, consumeMessage_typed_effects]

/- ### Claim C9 -/

/-- C9: the analytics sink's behaviour — succeeding, returning a non-success
status, or throwing — never changes the ack/retry outcome of any dequeued
message; concretely, a message acknowledged under a succeeding analytics sink
is acknowledged under a throwing one. -/
theorem C9_analytics_never_changes_outcome (env : NotifEnv) (s e : SinkResult)
    (g gAlt : SinkResult) (body : QueueBody) :
    (consumeMessage env s e g body).1 = (consumeMessage env s e gAlt body).1 ∧
    (consumeMessage ⟨true, true, true, true⟩ .success .success .netError
      (.typed ⟨NotifType.estimate_request, some "Pat", some "pat@example.com",
        some "555-0100", some "Interior Painting", some "hello",
        none, none, 0, none⟩)).1 = MsgOutcome.ack := by
  refine ⟨?_, rfl⟩
  cases body <;> rfl
